import Mathlib

/-!
Verification of the chat-service coordination core.

Shallow embedding of the TypeScript sources:
  - src/lib/sanitize.ts            (sanitizeMessage, validateMessage)
  - src/lib/rate-limiter.ts        (SocketRateLimiter.isRateLimited)
  - src/services/chat.service.ts   (session records and service methods)
  - src/services/ai.service.ts     (AIService.generateResponse, latest revision)
  - src/socket/handlers/customer.handler.ts
  - src/socket/handlers/merchant.handler.ts (latest revision, with rate
    limiting, sanitization and the strict auth check)
  - src/server.ts                  (GET merchant sessions endpoint)

Strings are modelled as Lean `String`/`List Char`; millisecond timestamps as
`Nat`; JS `null`/`undefined` as `Option`; thrown exceptions as `Except`.
-/

namespace ChatSpec

/-! ## Content sanitizer (src/lib/sanitize.ts) -/

/-- `MAX_MESSAGE_LENGTH` constant from src/lib/sanitize.ts. -/
def MAX_MESSAGE_LENGTH : Nat := 5000

/-- One JS `String.prototype.replace(/c/g, rep)` pass for a single-character
pattern: every occurrence of `target` is replaced by `rep`. -/
def replaceChar (target : Char) (rep : List Char) : List Char → List Char
  | [] => []
  | c :: cs =>
    if c = target then rep ++ replaceChar target rep cs
    else c :: replaceChar target rep cs

/-- JS `String.prototype.trim()`: strip leading and trailing whitespace. -/
def jsTrim (cs : List Char) : List Char :=
  ((cs.dropWhile Char.isWhitespace).reverse.dropWhile Char.isWhitespace).reverse

/-- The apostrophe character (U+0027), spelled by code point. -/
def apos : Char := Char.ofNat 39

/-- The six chained `.replace` calls of `sanitizeMessage`
(src/lib/sanitize.ts lines 24-30), applied in source order:
ampersand first, then angle brackets, double quote, apostrophe, slash. -/
def encodeHtmlEntities (cs : List Char) : List Char :=
  replaceChar '/' ("&#x2F;".data)
    (replaceChar apos ("&#x27;".data)
      (replaceChar '"' ("&quot;".data)
        (replaceChar '>' ("&gt;".data)
          (replaceChar '<' ("&lt;".data)
            (replaceChar '&' ("&amp;".data) cs)))))

/-- `sanitizeMessage` (src/lib/sanitize.ts lines 15-38) restricted to string
inputs: the falsy-empty-string guard, trim, entity encoding, then truncation
to `MAX_MESSAGE_LENGTH`. -/
def sanitizeMessage (content : String) : String :=
  if content = "" then ""
  else
    let trimmed := jsTrim content.data
    let encoded := encodeHtmlEntities trimmed
    let bounded :=
      if encoded.length > MAX_MESSAGE_LENGTH then encoded.take MAX_MESSAGE_LENGTH
      else encoded
    String.mk bounded

/-- A value arriving at the JS boundary: a string, or any non-string value
(`typeof content !== 'string'`). -/
inductive JsValue where
  | str (s : String)
  | nonString
deriving DecidableEq

/-- `sanitizeMessage` at the untyped JS boundary: the guard
`if (!content || typeof content !== 'string') return ''` sends every
non-string input to the empty string. -/
def sanitizeMessageJs : JsValue → String
  | .nonString => ""
  | .str s => sanitizeMessage s

/-- Result of `validateMessage` (src/lib/sanitize.ts lines 46-65). -/
inductive ValidationResult where
  | valid
  | invalid (error : String)
deriving DecidableEq

/-- `validateMessage` (src/lib/sanitize.ts lines 46-65) on string input. -/
def validateMessage (content : String) : ValidationResult :=
  if content = "" then .invalid ("Message content is required")
  else if (jsTrim content.data).length = 0 then .invalid ("Message cannot be empty")
  else if (jsTrim content.data).length > MAX_MESSAGE_LENGTH then
    .invalid ("Message exceeds maximum length of " ++ toString MAX_MESSAGE_LENGTH ++ " characters")
  else .valid

/-! ### Sanitizer lemmas -/

theorem mem_replaceChar {c target : Char} {rep xs : List Char}
    (h : c ∈ replaceChar target rep xs) : c ∈ rep ∨ (c ∈ xs ∧ c ≠ target) := by
  induction xs with
  | nil => simp [replaceChar] at h
  | cons x xs ih =>
    simp only [replaceChar] at h
    by_cases hx : x = target
    · simp [hx] at h
      rcases h with h1 | h1
      · exact Or.inl h1
      · rcases ih h1 with h2 | ⟨h2, h3⟩
        · exact Or.inl h2
        · exact Or.inr ⟨List.mem_cons_of_mem _ h2, h3⟩
    · simp [hx] at h
      rcases h with h1 | h1
      · subst h1
        exact Or.inr ⟨List.mem_cons_self _ _, hx⟩
      · rcases ih h1 with h2 | ⟨h2, h3⟩
        · exact Or.inl h2
        · exact Or.inr ⟨List.mem_cons_of_mem _ h2, h3⟩

theorem not_mem_replaceChar_self {target : Char} {rep : List Char}
    (hrep : target ∉ rep) (xs : List Char) : target ∉ replaceChar target rep xs := by
  intro h
  rcases mem_replaceChar h with h1 | ⟨_, h2⟩
  · exact hrep h1
  · exact h2 rfl

theorem not_mem_replaceChar_of {c target : Char} {rep xs : List Char}
    (hxs : c ∉ xs) (hrep : c ∉ rep) : c ∉ replaceChar target rep xs := by
  intro h
  rcases mem_replaceChar h with h1 | ⟨h2, _⟩
  · exact hrep h1
  · exact hxs h2

theorem lt_not_mem_encode (cs : List Char) : '<' ∉ encodeHtmlEntities cs := by
  unfold encodeHtmlEntities
  apply not_mem_replaceChar_of
  apply not_mem_replaceChar_of
  apply not_mem_replaceChar_of
  apply not_mem_replaceChar_of
  apply not_mem_replaceChar_self
  all_goals decide

theorem gt_not_mem_encode (cs : List Char) : '>' ∉ encodeHtmlEntities cs := by
  unfold encodeHtmlEntities
  apply not_mem_replaceChar_of
  apply not_mem_replaceChar_of
  apply not_mem_replaceChar_of
  apply not_mem_replaceChar_self
  all_goals decide

theorem quot_not_mem_encode (cs : List Char) : '"' ∉ encodeHtmlEntities cs := by
  unfold encodeHtmlEntities
  apply not_mem_replaceChar_of
  apply not_mem_replaceChar_of
  apply not_mem_replaceChar_self
  all_goals decide

theorem apos_not_mem_encode (cs : List Char) : apos ∉ encodeHtmlEntities cs := by
  unfold encodeHtmlEntities
  apply not_mem_replaceChar_of
  apply not_mem_replaceChar_self
  all_goals decide

theorem slash_not_mem_encode (cs : List Char) : '/' ∉ encodeHtmlEntities cs := by
  unfold encodeHtmlEntities
  exact not_mem_replaceChar_self (by decide) _

theorem mem_sanitizeMessage_mem_encode {c : Char} {s : String}
    (h : c ∈ (sanitizeMessage s).data) :
    ∃ cs, c ∈ encodeHtmlEntities cs := by
  unfold sanitizeMessage at h
  by_cases hs : s = ""
  · simp [hs] at h
  · simp only [hs, if_false] at h
    refine ⟨jsTrim s.data, ?_⟩
    by_cases hlen : (encodeHtmlEntities (jsTrim s.data)).length > MAX_MESSAGE_LENGTH
    · simp only [hlen, if_true] at h
      exact (List.take_sublist _ _).mem h
    · simpa only [hlen, if_false] using h

/-! ## Rate limiter (src/lib/rate-limiter.ts) -/

/-- One entry of the `limits` map (src/lib/rate-limiter.ts lines 6-9). -/
structure RateLimitEntry where
  count : Nat
  resetTime : Nat
deriving DecidableEq, Repr

/-- `SocketRateLimiter` state: the per-socket entry map plus the two
configuration constants (src/lib/rate-limiter.ts lines 11-35). -/
structure SocketRateLimiter where
  maxRequests : Nat
  windowMs : Nat
  limits : String → Option RateLimitEntry

/-- `this.limits.set(socketId, e)`. -/
def SocketRateLimiter.setEntry (rl : SocketRateLimiter) (socketId : String)
    (e : RateLimitEntry) : SocketRateLimiter :=
  { rl with limits := fun id => if id = socketId then some e else rl.limits id }

/-- `SocketRateLimiter.isRateLimited` (src/lib/rate-limiter.ts lines 42-60):
returns the boolean result together with the updated limiter state; `now` is
the value of `Date.now()` at the call. -/
def SocketRateLimiter.isRateLimited (rl : SocketRateLimiter) (socketId : String)
    (now : Nat) : Bool × SocketRateLimiter :=
  match rl.limits socketId with
  | none =>
    (false, rl.setEntry socketId ⟨1, now + rl.windowMs⟩)
  | some entry =>
    if now > entry.resetTime then
      (false, rl.setEntry socketId ⟨1, now + rl.windowMs⟩)
    else
      (decide (entry.count + 1 > rl.maxRequests),
       rl.setEntry socketId ⟨entry.count + 1, entry.resetTime⟩)

/-- A fresh limiter with an empty `limits` map. -/
def SocketRateLimiter.fresh (maxRequests windowMs : Nat) : SocketRateLimiter :=
  ⟨maxRequests, windowMs, fun _ => none⟩

/-- Run a sequence of `isRateLimited` calls for one socket at the given
times, keeping only the final limiter state. -/
def runCalls (rl : SocketRateLimiter) (socketId : String) (ts : List Nat) :
    SocketRateLimiter :=
  ts.foldl (fun r t => (r.isRateLimited socketId t).2) rl

/-! ## Session records and ChatService (src/services/chat.service.ts, latest revision) -/

/-- A `ChatSession` row (src/types/chat.types.ts plus the `customerToken`
column used by the latest `chat.service.ts` revision). -/
structure ChatSessionR where
  id : String
  merchantId : String
  customerId : Option String := none
  customerName : String := ""
  customerEmail : Option String := none
  customerToken : Option String := none
  status : String := "active"
  aiEnabled : Bool := true
  merchantTookOver : Bool := false
  createdAt : Nat := 0
  updatedAt : Nat := 0
deriving DecidableEq, Repr

/-- JS truthiness of a nullable string (`null`/`undefined`/empty are falsy). -/
def truthyStr : Option String → Bool
  | none => false
  | some s => decide (s ≠ "")

/-- `ChatService.createSession` (chat.service.ts lines 122-142): a fresh
record with `status: active`, `aiEnabled: true`, `merchantTookOver: false`
and a freshly minted `customerToken` (`randomUUID()` modelled as the
`freshToken` argument; the database-assigned id as `freshId`). -/
def createSession (freshId merchantId customerName : String)
    (customerEmail customerId : Option String) (freshToken : String)
    (now : Nat) : ChatSessionR :=
  { id := freshId
    merchantId := merchantId
    customerId := customerId
    customerName := customerName
    customerEmail := customerEmail
    customerToken := some freshToken
    status := "active"
    aiEnabled := true
    merchantTookOver := false
    createdAt := now
    updatedAt := now }

/-- `ChatService.merchantTakeover` (chat.service.ts lines 209-217): one
update setting `merchantTookOver: true, aiEnabled: false`. -/
def merchantTakeover (s : ChatSessionR) : ChatSessionR :=
  { s with merchantTookOver := true, aiEnabled := false }

/-- `ChatService.releaseTakeover` (chat.service.ts lines 219-227): one
update setting `merchantTookOver: false, aiEnabled: true`. -/
def releaseTakeover (s : ChatSessionR) : ChatSessionR :=
  { s with merchantTookOver := false, aiEnabled := true }

/-- `ChatService.toggleAI` (chat.service.ts lines 287-292): updates
`aiEnabled` only, leaving `merchantTookOver` untouched. -/
def toggleAI (s : ChatSessionR) (enabled : Bool) : ChatSessionR :=
  { s with aiEnabled := enabled }

/-- `ChatService.closeSession` (chat.service.ts lines 280-285). -/
def closeSession (s : ChatSessionR) : ChatSessionR :=
  { s with status := "closed" }

/-- The `updatedAt` refresh performed by `ChatService.saveMessage`
(chat.service.ts lines 200-204). -/
def touchSession (s : ChatSessionR) (now : Nat) : ChatSessionR :=
  { s with updatedAt := now }

/-- The customer-info refresh performed by `findOrCreateSession` on a
matched existing session (chat.service.ts lines 252-260). -/
def refreshSession (s : ChatSessionR) (customerName : String)
    (customerEmail : Option String) (now : Nat) : ChatSessionR :=
  { s with customerName := customerName, customerEmail := customerEmail, updatedAt := now }

/-- `ChatService.findOrCreateSession` (chat.service.ts lines 229-266).
`existing` is the result of the `findFirst` lookup for the most recently
active `(merchantId, customerId)` session; `presentedToken` is the
`customerToken` argument.  The JS guard is
`if (existingSession.customerToken && existingSession.customerToken !== customerToken) throw`. -/
def findOrCreateSession (existing : Option ChatSessionR)
    (merchantId customerId customerName : String)
    (customerEmail presentedToken : Option String)
    (freshId freshToken : String) (now : Nat) : Except String ChatSessionR :=
  match existing with
  | some s =>
    if truthyStr s.customerToken && !(s.customerToken == presentedToken) then
      .error ("Invalid customer token")
    else
      .ok (refreshSession s customerName customerEmail now)
  | none =>
    .ok (createSession freshId merchantId customerName customerEmail (some customerId) freshToken now)

/-- The session mutations reachable through the socket handlers (takeover,
release, the `saveMessage` activity touch, the `findOrCreateSession`
refresh, and close).  `toggleAI` is deliberately absent: no handler in the
repository invokes it. -/
inductive SessionOp where
  | takeover
  | release
  | saveTouch (now : Nat)
  | refresh (customerName : String) (customerEmail : Option String) (now : Nat)
  | close
deriving DecidableEq

def applySessionOp (s : ChatSessionR) : SessionOp → ChatSessionR
  | .takeover => merchantTakeover s
  | .release => releaseTakeover s
  | .saveTouch now => touchSession s now
  | .refresh n e now => refreshSession s n e now
  | .close => closeSession s

/-! ## Generation lock machine

`handleCustomerMessage` (customer.handler.ts lines 92-167) runs on the
single-threaded Node event loop: code between two `await` points executes
atomically.  For one conversation, each triggering customer message is a
task which (1) persists and fans out the customer message (the awaits on
lines 135-138), then (2) runs the synchronous block
`if (chatService.isAILocked(sessionId)) return; chatService.lockAI(sessionId);`
(lines 143-144, no await in between, hence one atomic check-and-acquire),
then (3) if it acquired the lock performs the provider call inside
`try ... finally chatService.unlockAI(sessionId)` (lines 146-160), so the
release runs on success and on failure alike.  The state counts tasks in
each phase. -/

structure GenState where
  lock : Bool
  pending : Nat
  ready : Nat
  generating : Nat
  skipped : Nat
  doneOk : Nat
  doneFailed : Nat
deriving DecidableEq, Repr

/-- One atomic scheduler step of the event loop, restricted to one
conversation's tasks. -/
inductive GenStep : GenState → GenState → Prop where
  | persist (s : GenState) (h : 0 < s.pending) :
      GenStep s { s with pending := s.pending - 1, ready := s.ready + 1 }
  | skip (s : GenState) (h : 0 < s.ready) (hl : s.lock = true) :
      GenStep s { s with ready := s.ready - 1, skipped := s.skipped + 1 }
  | acquire (s : GenState) (h : 0 < s.ready) (hl : s.lock = false) :
      GenStep s { s with lock := true, ready := s.ready - 1, generating := s.generating + 1 }
  | releaseOk (s : GenState) (h : 0 < s.generating) :
      GenStep s { s with lock := false, generating := s.generating - 1, doneOk := s.doneOk + 1 }
  | releaseFailed (s : GenState) (h : 0 < s.generating) :
      GenStep s { s with lock := false, generating := s.generating - 1, doneFailed := s.doneFailed + 1 }

/-- Initial state: the lock free and `n` triggering customer messages. -/
def initGen (n : Nat) : GenState :=
  { lock := false, pending := n, ready := 0, generating := 0
    skipped := 0, doneOk := 0, doneFailed := 0 }

def GenReachable (n : Nat) (s : GenState) : Prop :=
  Relation.ReflTransGen GenStep (initGen n) s

/-! ## AI service (src/services/ai.service.ts, latest revision) -/

/-- One chat-completion message sent to the provider. -/
structure AiMessage where
  role : String
  content : String
deriving DecidableEq, Repr

/-- A `ChatMessage` row (src/types/chat.types.ts). -/
structure ChatMessageR where
  id : String := ""
  sessionId : String := ""
  senderId : Option String := none
  senderType : String := "customer"
  content : String := ""
deriving DecidableEq, Repr

/-- The messages array built by `generateResponse` (ai.service.ts): the
system prompt followed by `conversationHistory.slice(-10)` with
`customer` mapped to `user` and everything else to `assistant`. -/
def buildAiMessages (systemPrompt : String) (history : List ChatMessageR) : List AiMessage :=
  ⟨"system", systemPrompt⟩ ::
    (history.drop (history.length - 10)).map fun m =>
      ⟨if m.senderType = "customer" then "user" else "assistant", m.content⟩

/-- The third argument of `axios.post`: the request options object.  The
source passes only `headers`; the `timeout` axios option is absent, so it
holds its default (no timeout). -/
structure AxiosRequestOptions where
  hasAuthHeader : Bool
  timeout : Option Nat
deriving DecidableEq, Repr

/-- The options object literally constructed in `generateResponse`:
headers only, no `timeout` key. -/
def aiRequestOptions : AxiosRequestOptions := { hasAuthHeader := true, timeout := none }

/-- The chat-completion request issued by `generateResponse` (model,
messages, `max_tokens: 500`, and the axios options; the float
`temperature: 0.7` is not modelled). -/
structure AiRequest where
  model : String
  messages : List AiMessage
  maxTokens : Nat
  options : AxiosRequestOptions
deriving DecidableEq, Repr

/-- `FALLBACK_MESSAGES` (ai.service.ts): the fixed apology strings. -/
def FALLBACK_MESSAGE_AR : String :=
  "عذراً، حدث خطأ في معالجة طلبك. يرجى المحاولة مرة أخرى أو انتظار أحد ممثلي خدمة العملاء."

def FALLBACK_MESSAGE_EN : String :=
  "I'm sorry, I encountered an error processing your request. Please try again or wait for a customer service representative."

/-- `getFallbackMessage()` always returns the Arabic variant. -/
def getFallbackMessage : String := FALLBACK_MESSAGE_AR

/-- Outcome of the awaited `axios.post`: `failure` when axios throws
(network error, HTTP error status, or a timeout had one been configured);
`success c` when it resolves with `choices[0]?.message?.content = c`. -/
inductive ProviderResult where
  | failure
  | success (content : Option String)
deriving DecidableEq

/-- Result of `generateResponse`: the returned text together with the
provider request actually issued, if the provider was called at all. -/
structure GenOutcome where
  text : String
  request : Option AiRequest
deriving DecidableEq

/-- `AIService.generateResponse` (ai.service.ts lines 107-165, latest
revision).  `aiEnabled` is `process.env.AI_ENABLED === 'true'`; `apiKey` is
`process.env.AI_API_KEY`; `context` is the formatted system prompt when
`contextService.getMerchantContext` found the merchant (`null` otherwise);
`provider` is the outcome of the awaited `axios.post`.  The method never
throws: every failure path returns a fallback string. -/
def generateResponse (aiEnabled : Bool) (apiKey : Option String) (model : String)
    (context : Option String) (history : List ChatMessageR)
    (provider : ProviderResult) : GenOutcome :=
  if !aiEnabled || !truthyStr apiKey then
    { text := getFallbackMessage, request := none }
  else
    match context with
    | none =>
      { text := "I'm sorry, I'm having trouble accessing the product information right now."
        request := none }
    | some systemPrompt =>
      let req : AiRequest :=
        { model := model
          messages := buildAiMessages systemPrompt history
          maxTokens := 500
          options := aiRequestOptions }
      match provider with
      | .failure => { text := getFallbackMessage, request := some req }
      | .success none => { text := getFallbackMessage, request := some req }
      | .success (some c) =>
        if jsTrim c.data = [] then { text := getFallbackMessage, request := some req }
        else { text := c, request := some req }

/-! ## Socket handlers

Each handler run is embedded as a pure function from its environment (the
values the awaited collaborator calls return) to the observable outcome:
the error emitted to the originating socket, the database mutations
performed in order, and the events broadcast to the session room. -/

/-- A merchant row as selected by the handlers
(`select: { id, isChatEnabled }`). -/
structure MerchantR where
  id : String
  isChatEnabled : Bool
deriving DecidableEq, Repr

/-- A message as persisted by `chatService.saveMessage`. -/
structure SavedMessage where
  sessionId : String
  content : String
  senderType : String
  senderId : Option String
deriving DecidableEq, Repr

/-- An event broadcast to the `session:<id>` room. -/
inductive RoomEvent where
  | messageReceive (m : SavedMessage)
  | aiResponse (m : SavedMessage)
  | typingStart
  | typingStop
  | takeoverNotice (sessionId : String)
  | releaseNotice (sessionId : String)
deriving DecidableEq, Repr

/-- A database write performed by a handler. -/
inductive DbMutation where
  | savedMessage (m : SavedMessage)
  | takeover (sessionId : String)
  | release (sessionId : String)
deriving DecidableEq, Repr

/-- Observable outcome of one handler run. -/
structure HandlerOutcome where
  errorToSender : Option String := none
  mutations : List DbMutation := []
  roomEvents : List RoomEvent := []
  lockAcquired : Bool := false
deriving DecidableEq, Repr

/-- `Math.ceil(ms / 1000)` on natural numbers. -/
def ceilSeconds (ms : Nat) : Nat := (ms + 999) / 1000

/-- `if (merchant && merchant.isChatEnabled === false)`
(customer.handler.ts line 129). -/
def merchantChatDisabled : Option MerchantR → Bool
  | some m => !m.isChatEnabled
  | none => false

/-- Environment of one `handleCustomerMessage` run
(customer.handler.ts lines 92-167). -/
structure CustomerMsgEnv where
  /-- `messageRateLimiter.isRateLimited(socket.id)` result. -/
  rateLimited : Bool
  /-- `messageRateLimiter.getResetTime(socket.id)` in ms. -/
  rateResetMs : Nat := 0
  /-- `chatService.getSession(sessionId)` result. -/
  session : Option ChatSessionR := none
  /-- `prisma.merchant.findUnique` result for the session's merchant. -/
  merchant : Option MerchantR := none
  /-- `aiService.isAIEnabled()`. -/
  aiServiceEnabled : Bool := false
  /-- `chatService.isAILocked(sessionId)` at the synchronous check. -/
  aiLocked : Bool := false
  /-- The string the awaited `aiService.generateResponse` resolves to
  (the latest revision never rejects). -/
  aiResponse : String := ""
deriving DecidableEq, Repr

/-- `handleCustomerMessage` (customer.handler.ts lines 92-167), one run in
isolation: guard order is sender-kind, rate limit, validation,
sanitization, session lookup, merchant chat-enabled re-check, persist,
fan out, then the guarded generation branch. -/
def handleCustomerMessage (env : CustomerMsgEnv)
    (sessionId content senderType : String) : HandlerOutcome :=
  if senderType ≠ "customer" then {}
  else if env.rateLimited then
    { errorToSender := some ("Too many messages. Please wait " ++
        toString (ceilSeconds env.rateResetMs) ++ " seconds before sending more.") }
  else
    match validateMessage content with
    | .invalid e => { errorToSender := some e }
    | .valid =>
      let sanitized := sanitizeMessage content
      match env.session with
      | none => { errorToSender := some ("Session not found") }
      | some session =>
        if merchantChatDisabled env.merchant then
          { errorToSender := some ("Chat is currently disabled for this store") }
        else
          let m : SavedMessage := ⟨sessionId, sanitized, "customer", none⟩
          if session.aiEnabled && !session.merchantTookOver && env.aiServiceEnabled then
            if env.aiLocked then
              { mutations := [.savedMessage m], roomEvents := [.messageReceive m] }
            else
              let am : SavedMessage := ⟨sessionId, env.aiResponse, "ai", none⟩
              { mutations := [.savedMessage m, .savedMessage am]
                roomEvents := [.messageReceive m, .typingStart, .typingStop, .aiResponse am]
                lockAcquired := true }
          else
            { mutations := [.savedMessage m], roomEvents := [.messageReceive m] }

/-- Environment of one merchant-handler run. `socketMerchantId` is the
CURRENT value of `socket.data.merchantId`.  The authentication middleware
(socket/index.ts) sets it to the operator's merchant for a valid token,
but `handleCustomerJoin` (customer.handler.ts lines 58-61) later
reassigns it from the untrusted customer:join payload on any connection,
so this field is not necessarily the connection's authenticated identity
(see `customerJoinAssignSocketData`). -/
structure MerchantMsgEnv where
  rateLimited : Bool := false
  rateResetMs : Nat := 0
  session : Option ChatSessionR := none
  socketMerchantId : Option String := none
deriving DecidableEq, Repr

/-- `handleMerchantMessage` (merchant.handler.ts latest revision,
lines 45-100): rate limit, validation, sanitization, session lookup,
ownership check `session.merchantId !== socket.data.merchantId`, persist
the sanitized content, fan out, then auto-takeover when the session was
not yet taken over. -/
def handleMerchantMessage (env : MerchantMsgEnv)
    (sessionId content senderType : String) : HandlerOutcome :=
  if senderType ≠ "merchant" then {}
  else if env.rateLimited then
    { errorToSender := some ("Too many messages. Please wait " ++
        toString (ceilSeconds env.rateResetMs) ++ " seconds before sending more.") }
  else
    match validateMessage content with
    | .invalid e => { errorToSender := some e }
    | .valid =>
      let sanitized := sanitizeMessage content
      match env.session with
      | none => { errorToSender := some ("Session not found") }
      | some session =>
        if env.socketMerchantId ≠ some session.merchantId then
          { errorToSender := some ("Unauthorized") }
        else
          let m : SavedMessage := ⟨sessionId, sanitized, "merchant", env.socketMerchantId⟩
          if !session.merchantTookOver then
            { mutations := [.savedMessage m, .takeover sessionId]
              roomEvents := [.messageReceive m, .takeoverNotice sessionId] }
          else
            { mutations := [.savedMessage m], roomEvents := [.messageReceive m] }

/-- `handleMerchantTakeover` (merchant.handler.ts latest revision,
lines 102-132): session lookup, ownership check, then the takeover update
and the takeover broadcast. -/
def handleMerchantTakeover (session : Option ChatSessionR)
    (socketMerchantId : Option String) (sessionId : String) : HandlerOutcome :=
  match session with
  | none => { errorToSender := some ("Session not found") }
  | some s =>
    if socketMerchantId ≠ some s.merchantId then
      { errorToSender := some ("Unauthorized") }
    else
      { mutations := [.takeover sessionId], roomEvents := [.takeoverNotice sessionId] }

/-- `handleMerchantReleaseTakeover` (merchant.handler.ts latest revision,
lines 134-164). -/
def handleMerchantReleaseTakeover (session : Option ChatSessionR)
    (socketMerchantId : Option String) (sessionId : String) : HandlerOutcome :=
  match session with
  | none => { errorToSender := some ("Session not found") }
  | some s =>
    if socketMerchantId ≠ some s.merchantId then
      { errorToSender := some ("Unauthorized") }
    else
      { mutations := [.release sessionId], roomEvents := [.releaseNotice sessionId] }

/-- The authenticated user attached by `requireAuth` (server.ts):
`merchantId` is `user.merchant?.id`. -/
structure AuthedUser where
  merchantId : Option String
deriving DecidableEq, Repr

/-- Response of `GET /api/merchants/:merchantId/sessions`. -/
inductive SessionsResponse where
  | forbidden
  | ok (sessions : List ChatSessionR)
deriving DecidableEq, Repr

/-- The sessions-listing endpoint (server.ts lines 141-160): the ownership
check `!user.merchant || user.merchant.id !== merchantId` runs before any
database read; only on success is `getMerchantSessions` consulted
(its result is the `activeSessions` argument). -/
def listMerchantSessions (user : AuthedUser) (merchantId : String)
    (activeSessions : List ChatSessionR) : SessionsResponse :=
  if user.merchantId ≠ some merchantId then .forbidden
  else .ok activeSessions

/-- The connection state `socket.data` (src/types/chat.types.ts,
`SocketData`). -/
structure SocketDataR where
  userId : Option String := none
  userType : Option String := none
  merchantId : Option String := none
  sessionId : Option String := none
deriving DecidableEq, Repr

/-- The authentication middleware (socket/index.ts): a connection
presenting a valid, unexpired token whose user has a merchant profile
gets `userType = merchant` and `merchantId` set to that merchant.  This
is the connection's authenticated identity, resolved once at connection
establishment. -/
def authenticateOperator (userId merchantId : String) : SocketDataR :=
  { userId := some userId, userType := some "merchant", merchantId := some merchantId }

/-- The `socket.data` assignment performed by `handleCustomerJoin`
(customer.handler.ts lines 58-61) after any successful customer:join
(merchant exists, chat enabled, join rate ok): it OVERWRITES `userType`
with `customer` and `merchantId` with the merchant id taken from the
untrusted join payload, regardless of what the authentication middleware
had resolved for the connection. -/
def customerJoinAssignSocketData (sd : SocketDataR)
    (merchantId sessionId : String) : SocketDataR :=
  { sd with userType := some "customer", merchantId := some merchantId
            sessionId := some sessionId }

/-! ## Claims -/

/-- C10: sanitizeMessage is total at the public boundary: every input yields
a string of length at most 5000 (the `MAX_MESSAGE_LENGTH` truncation applies
even after entity encoding expands the text), and an empty or non-string
input yields the empty string rather than an exception. -/
theorem C10_sanitize_total_and_bounded :
    ∀ v : JsValue,
      (sanitizeMessageJs v).length ≤ MAX_MESSAGE_LENGTH ∧
      sanitizeMessageJs JsValue.nonString = "" ∧
      sanitizeMessageJs (JsValue.str "") = "" := by
  intro v
  refine ⟨?_, rfl, rfl⟩
  cases v with
  | nonString => simp [sanitizeMessageJs, MAX_MESSAGE_LENGTH, String.length]
  | str s =>
    show (sanitizeMessage s).length ≤ MAX_MESSAGE_LENGTH
    unfold sanitizeMessage
    by_cases hs : s = ""
    · simp [hs, String.length, MAX_MESSAGE_LENGTH]
    · simp only [hs, if_false]
      by_cases hlen : (encodeHtmlEntities (jsTrim s.data)).length > MAX_MESSAGE_LENGTH
      · simp only [hlen, if_true]
        show (List.take MAX_MESSAGE_LENGTH _).length ≤ MAX_MESSAGE_LENGTH
        simp [List.length_take]
      · simp only [hlen, if_false]
        show (encodeHtmlEntities (jsTrim s.data)).length ≤ MAX_MESSAGE_LENGTH
        omega

/-- C7 counterexample: sanitizeMessage is not idempotent.  Applying it to
its own output on the one-character input "<" re-encodes the ampersand of
the entity it introduced (no truncation is involved: all strings are far
below the length cap), so the second application changes the text. -/
theorem C7_counterexample :
    sanitizeMessage (sanitizeMessage ("<")) ≠ sanitizeMessage ("<") := by decide

/-- C7 amended: sanitizeMessage output never contains a literal less-than,
greater-than, double-quote, apostrophe, or slash character (the encodings
introduce only ampersands, letters, digits and semicolons, and truncation
only removes characters); idempotence fails because a second application
re-encodes the ampersands of the entities produced by the first. -/
theorem C7_sanitize_neutralizes_markup (s : String) (c : Char)
    (h : c ∈ (sanitizeMessage s).data) :
    c ≠ '<' ∧ c ≠ '>' ∧ c ≠ '"' ∧ c ≠ apos ∧ c ≠ '/' := by
  obtain ⟨cs, hc⟩ := mem_sanitizeMessage_mem_encode h
  refine ⟨?_, ?_, ?_, ?_, ?_⟩ <;> rintro rfl
  · exact lt_not_mem_encode cs hc
  · exact gt_not_mem_encode cs hc
  · exact quot_not_mem_encode cs hc
  · exact apos_not_mem_encode cs hc
  · exact slash_not_mem_encode cs hc

/-- C7 witness: the amended theorem applied to the concrete input "a<b" at
the character 'a' of its sanitized form. -/
theorem C7_witness :
    ('a' ∈ (sanitizeMessage ("a<b")).data) ∧
      ('a' ≠ '<' ∧ 'a' ≠ '>' ∧ 'a' ≠ '"' ∧ 'a' ≠ apos ∧ 'a' ≠ '/') :=
  ⟨by decide, C7_sanitize_neutralizes_markup ("a<b") 'a' (by decide)⟩

/-- C2 counterexample: `toggleAI(sessionId, false)` on a freshly created
session leaves `aiEnabled = false` and `merchantTookOver = false`, so
neither automated-enabled nor operator-took-over holds — the service
method `toggleAI` does not preserve the exclusive-or. -/
theorem C2_counterexample :
    ¬ ((toggleAI (createSession ("s1") ("m1") ("alice") none none ("tok") 0) false).aiEnabled
        = !(toggleAI (createSession ("s1") ("m1") ("alice") none none ("tok") 0) false).merchantTookOver) := by
  decide

/-- C2 amended: session creation establishes aiEnabled = true and
merchantTookOver = false, and every session operation actually invoked by
the handlers (takeover, release, the saveMessage activity touch, the
findOrCreateSession refresh, close) keeps exactly one of
automated-enabled / operator-took-over true; the unused `toggleAI`
service method is excluded because it can violate the invariant. -/
theorem C2_session_mode_exclusive (ops : List SessionOp)
    (freshId merchantId customerName : String)
    (customerEmail customerId : Option String) (freshToken : String) (now : Nat) :
    (ops.foldl applySessionOp
        (createSession freshId merchantId customerName customerEmail customerId freshToken now)).aiEnabled
      = !(ops.foldl applySessionOp
        (createSession freshId merchantId customerName customerEmail customerId freshToken now)).merchantTookOver := by
  have key : ∀ (l : List SessionOp) (s : ChatSessionR),
      s.aiEnabled = !s.merchantTookOver →
      (l.foldl applySessionOp s).aiEnabled = !(l.foldl applySessionOp s).merchantTookOver := by
    intro l
    induction l with
    | nil => intro s hs; exact hs
    | cons op l ih =>
      intro s hs
      apply ih
      cases op <;>
        simp [applySessionOp, merchantTakeover, releaseTakeover, touchSession,
          refreshSession, closeSession, hs]
  exact key ops _ rfl

/-- C5: findOrCreateSession with an existing tokened session rejects a
mismatched presented secret with the `Invalid customer token` error and
creates nothing; on a match it refreshes name, email and activity
timestamp of the same session (same id); with no existing session it
delegates to createSession. -/
theorem C5_findOrCreate_token_check (s : ChatSessionR)
    (mId cId name : String) (email presented : Option String)
    (fid ftok : String) (now : Nat) :
    (truthyStr s.customerToken = true → s.customerToken ≠ presented →
        findOrCreateSession (some s) mId cId name email presented fid ftok now
          = .error ("Invalid customer token")) ∧
    (s.customerToken = presented →
        findOrCreateSession (some s) mId cId name email presented fid ftok now
          = .ok (refreshSession s name email now) ∧
        (refreshSession s name email now).id = s.id) ∧
    (findOrCreateSession none mId cId name email presented fid ftok now
        = .ok (createSession fid mId name email (some cId) ftok now)) := by
  refine ⟨?_, ?_, rfl⟩
  · intro ht hne
    have hb : (s.customerToken == presented) = false := beq_eq_false_iff_ne.mpr hne
    simp [findOrCreateSession, ht, hb]
  · intro heq
    have hb : (s.customerToken == presented) = true := by
      rw [heq]; exact beq_self_eq_true _
    exact ⟨by simp [findOrCreateSession, hb], rfl⟩

/-- Concrete existing session used by the C5 witness. -/
def c5Session : ChatSessionR :=
  { id := "s0", merchantId := "m0", customerId := some ("c0")
    customerName := "bob", customerToken := some ("t") }

/-- C5 witness: the theorem applied to a session carrying the secret
`t`, once with the mismatched secret `u` and once with the matching
secret. -/
theorem C5_witness :
    (findOrCreateSession (some c5Session) ("m0") ("c0") ("bob") none (some ("u")) ("f0") ("k0") 5
        = .error ("Invalid customer token")) ∧
    (findOrCreateSession (some c5Session) ("m0") ("c0") ("bob2") none (some ("t")) ("f0") ("k0") 6
        = .ok (refreshSession c5Session ("bob2") none 6)) ∧
    (findOrCreateSession none ("m0") ("c0") ("bob") none none ("f0") ("k0") 7
        = .ok (createSession ("f0") ("m0") ("bob") none (some ("c0")) ("k0") 7)) :=
  ⟨(C5_findOrCreate_token_check c5Session ("m0") ("c0") ("bob") none (some ("u")) ("f0") ("k0") 5).1
      (by decide) (by decide),
   ((C5_findOrCreate_token_check c5Session ("m0") ("c0") ("bob2") none (some ("t")) ("f0") ("k0") 6).2.1
      (by decide)).1,
   (C5_findOrCreate_token_check c5Session ("m0") ("c0") ("bob") none none ("f0") ("k0") 7).2.2⟩

/-- In-window calls only increment the counter: starting from an entry
`(c, rt)` for the socket, a sequence of calls all at times at most `rt`
leaves the entry at `(c + number of calls, rt)` and the configuration
unchanged. -/
theorem runCalls_in_window (socketId : String) (ts : List Nat) :
    ∀ (rl : SocketRateLimiter) (c rt : Nat),
      rl.limits socketId = some ⟨c, rt⟩ →
      (∀ t ∈ ts, t ≤ rt) →
      (runCalls rl socketId ts).limits socketId = some ⟨c + ts.length, rt⟩ ∧
      (runCalls rl socketId ts).maxRequests = rl.maxRequests ∧
      (runCalls rl socketId ts).windowMs = rl.windowMs := by
  induction ts with
  | nil =>
    intro rl c rt h _
    exact ⟨by simpa [runCalls] using h, rfl, rfl⟩
  | cons t ts ih =>
    intro rl c rt h hall
    have ht : ¬ t > rt := by
      have := hall t (List.mem_cons_self _ _)
      omega
    have hstep : (rl.isRateLimited socketId t).2
        = rl.setEntry socketId ⟨c + 1, rt⟩ := by
      simp [SocketRateLimiter.isRateLimited, h, ht]
    have hrun : runCalls rl socketId (t :: ts)
        = runCalls (rl.setEntry socketId ⟨c + 1, rt⟩) socketId ts := by
      simp [runCalls, List.foldl_cons, hstep]
    have hget : (rl.setEntry socketId ⟨c + 1, rt⟩).limits socketId = some ⟨c + 1, rt⟩ := by
      simp [SocketRateLimiter.setEntry]
    have hrest : ∀ u ∈ ts, u ≤ rt := fun u hu => hall u (List.mem_cons_of_mem _ hu)
    obtain ⟨h1, h2, h3⟩ := ih (rl.setEntry socketId ⟨c + 1, rt⟩) (c + 1) rt hget hrest
    rw [hrun]
    refine ⟨?_, ?_, ?_⟩
    · rw [h1]
      have hlen : c + 1 + ts.length = c + (t :: ts).length := by
        simp only [List.length_cons]
        omega
      rw [hlen]
    · rw [h2]; rfl
    · rw [h3]; rfl

/-- C4 amended: for a limiter configured for N requests per window W, the
(N+1)-th check call within one window returns limited; a call issued at
any time STRICTLY GREATER than the stored window expiry returns allowed
and resets the counter to 1 with a new window.  A call arriving exactly at
the expiry instant is counted in the old window (the code tests
`now > entry.resetTime`), so at the boundary an over-limit rejection is
possible. -/
theorem C4_fixed_window_rate_limit (N W t0 : Nat) (socketId : String)
    (ts : List Nat) (tfin : Nat) (hN : 0 < N) (hlen : ts.length = N - 1)
    (hwin : ∀ t ∈ ts, t ≤ t0 + W) (hfin : tfin ≤ t0 + W) :
    (((runCalls ((SocketRateLimiter.fresh N W).isRateLimited socketId t0).2 socketId ts).isRateLimited
        socketId tfin).1 = true) ∧
    (∀ (rl : SocketRateLimiter) (c rt tlate : Nat),
        rl.limits socketId = some ⟨c, rt⟩ → rt < tlate →
        rl.isRateLimited socketId tlate
          = (false, rl.setEntry socketId ⟨1, tlate + rl.windowMs⟩)) := by
  constructor
  · have hfirst : ((SocketRateLimiter.fresh N W).isRateLimited socketId t0).2
        = (SocketRateLimiter.fresh N W).setEntry socketId ⟨1, t0 + W⟩ := by
      simp [SocketRateLimiter.isRateLimited, SocketRateLimiter.fresh]
    have hget : ((SocketRateLimiter.fresh N W).setEntry socketId ⟨1, t0 + W⟩).limits socketId
        = some ⟨1, t0 + W⟩ := by
      simp [SocketRateLimiter.setEntry]
    obtain ⟨h1, h2, h3⟩ :=
      runCalls_in_window socketId ts _ 1 (t0 + W) hget hwin
    rw [hfirst] at *
    have hmax : (runCalls ((SocketRateLimiter.fresh N W).setEntry socketId ⟨1, t0 + W⟩)
        socketId ts).maxRequests = N := by
      rw [h2]; rfl
    have hcount : 1 + ts.length = N := by omega
    rw [hcount] at h1
    have hnf : ¬ tfin > t0 + W := by omega
    simp [SocketRateLimiter.isRateLimited, h1, hnf, hmax]
  · intro rl c rt tlate hget hlt
    have : tlate > rt := hlt
    simp [SocketRateLimiter.isRateLimited, hget, this]

/-- C4 counterexample: limiter configured for 1 request per 60000 ms
window.  The first call at time 0 is allowed and starts a window expiring
at 60000; a second call arriving EXACTLY at the expiry time 60000
(= window-start + W) is rejected as over-limit instead of starting a new
window, because the code tests `now > entry.resetTime` strictly. -/
theorem C4_counterexample :
    (((SocketRateLimiter.fresh 1 60000).isRateLimited ("sock") 0).1 = false) ∧
    ((((SocketRateLimiter.fresh 1 60000).isRateLimited ("sock") 0).2.isRateLimited ("sock") 60000).1
        = true) := by
  constructor <;> rfl

/-- C4 witness: the amended theorem at N = 2, W = 10, first call at 0,
second at 1, third (over-limit) at 10; and the strict-reset clause at a
stored entry (5, 10) probed at time 11. -/
theorem C4_witness :
    ((((runCalls ((SocketRateLimiter.fresh 2 10).isRateLimited ("sock") 0).2 ("sock") [1]).isRateLimited
        ("sock") 10).1 = true) ∧
      (∀ (rl : SocketRateLimiter) (c rt tlate : Nat),
        rl.limits ("sock") = some ⟨c, rt⟩ → rt < tlate →
        rl.isRateLimited ("sock") tlate
          = (false, rl.setEntry ("sock") ⟨1, tlate + rl.windowMs⟩))) :=
  C4_fixed_window_rate_limit 2 10 0 ("sock") [1] 10 (by decide) (by decide)
    (by intro t ht; simp at ht; omega) (by decide)

/-- The generation-lock invariant carried through every reachable state:
the lock is held exactly when one provider call is in flight, at most one
is ever in flight, and every triggering message is accounted for by
exactly one phase. -/
theorem genReachable_inv (n : Nat) (s : GenState) (h : GenReachable n s) :
    (s.lock = true ↔ s.generating = 1) ∧ s.generating ≤ 1 ∧
      s.pending + s.ready + s.generating + s.skipped + s.doneOk + s.doneFailed = n := by
  induction h with
  | refl => simp [initGen]
  | @tail b c hsteps hstep ih =>
    obtain ⟨hiff, hle, hsum⟩ := ih
    cases hstep with
    | persist hp =>
      refine ⟨hiff, hle, ?_⟩
      show b.pending - 1 + (b.ready + 1) + b.generating + b.skipped + b.doneOk + b.doneFailed = n
      omega
    | skip hr hl =>
      refine ⟨hiff, hle, ?_⟩
      show b.pending + (b.ready - 1) + b.generating + (b.skipped + 1) + b.doneOk + b.doneFailed = n
      omega
    | acquire hr hl =>
      have hg0 : b.generating = 0 := by
        by_contra hne
        have h1 : b.generating = 1 := by omega
        have h2 := hiff.mpr h1
        rw [hl] at h2
        exact Bool.false_ne_true h2
      refine ⟨?_, ?_, ?_⟩
      · show true = true ↔ b.generating + 1 = 1
        simp [hg0]
      · show b.generating + 1 ≤ 1
        omega
      · show b.pending + (b.ready - 1) + (b.generating + 1) + b.skipped + b.doneOk + b.doneFailed = n
        omega
    | releaseOk hg =>
      refine ⟨?_, ?_, ?_⟩
      · show false = true ↔ b.generating - 1 = 1
        constructor
        · intro hf; exact absurd hf Bool.false_ne_true
        · intro h1; exact absurd h1 (by omega)
      · show b.generating - 1 ≤ 1
        omega
      · show b.pending + b.ready + (b.generating - 1) + b.skipped + (b.doneOk + 1) + b.doneFailed = n
        omega
    | releaseFailed hg =>
      refine ⟨?_, ?_, ?_⟩
      · show false = true ↔ b.generating - 1 = 1
        constructor
        · intro hf; exact absurd hf Bool.false_ne_true
        · intro h1; exact absurd h1 (by omega)
      · show b.generating - 1 ≤ 1
        omega
      · show b.pending + b.ready + (b.generating - 1) + b.skipped + b.doneOk + (b.doneFailed + 1) = n
        omega

/-- C1: in every event-loop interleaving of customer-message handlers for
one conversation, at most one provider call is in flight at a time; a
message observing the lock held is persisted and fanned out (the
persist step precedes the lock check in every task) but skips generation;
the lock is free whenever no provider call is outstanding — in particular
after a provider FAILURE, since the finally-scoped release step fires for
failed calls too; and every triggering message ends in exactly one of the
accounted phases. -/
theorem C1_generation_lock_exclusion (n : Nat) (s : GenState)
    (h : GenReachable n s) :
    s.generating ≤ 1 ∧
    (s.generating = 0 → s.lock = false) ∧
    s.pending + s.ready + s.generating + s.skipped + s.doneOk + s.doneFailed = n := by
  obtain ⟨hiff, hle, hsum⟩ := genReachable_inv n s h
  refine ⟨hle, ?_, hsum⟩
  intro h0
  cases hcl : s.lock
  · rfl
  · have := hiff.mp hcl
    omega

/-- C1 witness: a concrete interleaving of two rapid customer messages —
both persist, the first acquires the lock, the second observes it held and
skips, the first's provider call FAILS and the finally-scoped release
frees the lock — reaches the final state, to which the theorem applies. -/
theorem C1_witness :
    ((⟨false, 0, 0, 0, 1, 0, 1⟩ : GenState).generating ≤ 1 ∧
      ((⟨false, 0, 0, 0, 1, 0, 1⟩ : GenState).generating = 0 →
        (⟨false, 0, 0, 0, 1, 0, 1⟩ : GenState).lock = false) ∧
      (⟨false, 0, 0, 0, 1, 0, 1⟩ : GenState).pending +
        (⟨false, 0, 0, 0, 1, 0, 1⟩ : GenState).ready +
        (⟨false, 0, 0, 0, 1, 0, 1⟩ : GenState).generating +
        (⟨false, 0, 0, 0, 1, 0, 1⟩ : GenState).skipped +
        (⟨false, 0, 0, 0, 1, 0, 1⟩ : GenState).doneOk +
        (⟨false, 0, 0, 0, 1, 0, 1⟩ : GenState).doneFailed = 2) :=
  C1_generation_lock_exclusion 2 ⟨false, 0, 0, 0, 1, 0, 1⟩
    (Relation.ReflTransGen.tail
      (Relation.ReflTransGen.tail
        (Relation.ReflTransGen.tail
          (Relation.ReflTransGen.tail
            (Relation.ReflTransGen.tail Relation.ReflTransGen.refl
              (GenStep.persist (initGen 2) (by decide)))
            (GenStep.persist ⟨false, 1, 1, 0, 0, 0, 0⟩ (by decide)))
          (GenStep.acquire ⟨false, 0, 2, 0, 0, 0, 0⟩ (by decide) rfl))
        (GenStep.skip ⟨true, 0, 1, 1, 0, 0, 0⟩ (by decide) rfl))
      (GenStep.releaseFailed ⟨true, 0, 0, 1, 1, 0, 0⟩ (by decide)))

/-- C9: a customer message:send referencing an existing session whose
merchant record has isChatEnabled = false yields only an error to the
sending connection: no persistence, no broadcast, no lock acquisition —
the chat-enabled guard is re-evaluated on every customer message, not
only at join. -/
theorem C9_chat_disabled_recheck (env : CustomerMsgEnv)
    (sessionId content : String) (sess : ChatSessionR) (m : MerchantR)
    (hsess : env.session = some sess) (hm : env.merchant = some m)
    (hdis : m.isChatEnabled = false) :
    (handleCustomerMessage env sessionId content ("customer")).mutations = [] ∧
    (handleCustomerMessage env sessionId content ("customer")).roomEvents = [] ∧
    (handleCustomerMessage env sessionId content ("customer")).lockAcquired = false ∧
    (env.rateLimited = false → validateMessage content = .valid →
        (handleCustomerMessage env sessionId content ("customer")).errorToSender
          = some ("Chat is currently disabled for this store")) := by
  have hd : merchantChatDisabled env.merchant = true := by
    rw [hm]; simp [merchantChatDisabled, hdis]
  by_cases hrl : env.rateLimited
  · simp [handleCustomerMessage, hrl]
  · cases hval : validateMessage content with
    | invalid e => simp [handleCustomerMessage, hrl, hval]
    | valid => simp [handleCustomerMessage, hrl, hval, hsess, hd]

/-- Concrete session and environment for the C9 witness. -/
def c9Session : ChatSessionR := { id := "s0", merchantId := "m0" }

def c9Env : CustomerMsgEnv :=
  { rateLimited := false, session := some c9Session
    merchant := some { id := "m0", isChatEnabled := false } }

/-- C9 witness: the theorem at a concrete session of a merchant whose chat
flag is off, with the rate limit clear and valid content, yielding the
disabled error and no effects. -/
theorem C9_witness :
    (handleCustomerMessage c9Env ("s0") ("hello") ("customer")).mutations = [] ∧
    (handleCustomerMessage c9Env ("s0") ("hello") ("customer")).roomEvents = [] ∧
    (handleCustomerMessage c9Env ("s0") ("hello") ("customer")).lockAcquired = false ∧
    (handleCustomerMessage c9Env ("s0") ("hello") ("customer")).errorToSender
      = some ("Chat is currently disabled for this store") :=
  have h := C9_chat_disabled_recheck c9Env ("s0") ("hello") c9Session
    { id := "m0", isChatEnabled := false } rfl rfl rfl
  ⟨h.1, h.2.1, h.2.2.1, h.2.2.2 rfl (by decide)⟩

/-- Supporting lemma: the per-operation ownership checks themselves do
reject a mismatch.  When the socket's RECORDED merchant identity
(`socket.data.merchantId`, whatever it currently holds) differs from the
session's owner, message-send, takeover and release-takeover emit only
the Unauthorized error with no mutation and no broadcast, and the HTTP
session listing returns 403 Forbidden before any session data is read.
This does not establish cross-merchant isolation, because the recorded
identity is forgeable via customer:join (see
`C3_forged_identity_mutates_foreign_session`). -/
theorem ownership_checks_reject_mismatched_socket_identity (X Y : String) (hXY : X ≠ Y)
    (sess : ChatSessionR) (hown : sess.merchantId = Y)
    (envm : MerchantMsgEnv) (hes : envm.session = some sess)
    (hid : envm.socketMerchantId = some X)
    (sessionId content : String) (ySessions : List ChatSessionR) :
    ((handleMerchantMessage envm sessionId content ("merchant")).mutations = [] ∧
     (handleMerchantMessage envm sessionId content ("merchant")).roomEvents = [] ∧
     (envm.rateLimited = false → validateMessage content = .valid →
        (handleMerchantMessage envm sessionId content ("merchant")).errorToSender
          = some ("Unauthorized"))) ∧
    (handleMerchantTakeover (some sess) (some X) sessionId
        = { errorToSender := some ("Unauthorized") }) ∧
    (handleMerchantReleaseTakeover (some sess) (some X) sessionId
        = { errorToSender := some ("Unauthorized") }) ∧
    (listMerchantSessions ⟨some X⟩ Y ySessions = SessionsResponse.forbidden) := by
  have hne : (some X : Option String) ≠ some sess.merchantId := by
    rw [hown]; simpa using hXY
  have hneY : (some X : Option String) ≠ some Y := by simpa using hXY
  refine ⟨⟨?_, ?_, ?_⟩, ?_, ?_, ?_⟩
  · by_cases hrl : envm.rateLimited
    · simp [handleMerchantMessage, hrl]
    · cases hval : validateMessage content with
      | invalid e => simp [handleMerchantMessage, hrl, hval]
      | valid => simp [handleMerchantMessage, hrl, hval, hes, hid, hne]
  · by_cases hrl : envm.rateLimited
    · simp [handleMerchantMessage, hrl]
    · cases hval : validateMessage content with
      | invalid e => simp [handleMerchantMessage, hrl, hval]
      | valid => simp [handleMerchantMessage, hrl, hval, hes, hid, hne]
  · intro hrl hval
    simp [handleMerchantMessage, hrl, hval, hes, hid, hne]
  · simp [handleMerchantTakeover, hne]
  · simp [handleMerchantReleaseTakeover, hne]
  · simp [listMerchantSessions, hneY]

/-- Concrete cross-merchant scenario for the ownership-check lemma and
the C3 code-bug demonstration. -/
def c3Session : ChatSessionR := { id := "s1", merchantId := "y" }

def c3Env : MerchantMsgEnv :=
  { rateLimited := false, session := some c3Session, socketMerchantId := some ("x") }

/-- Concrete instance of the ownership-check lemma: a socket whose
recorded identity is x acting on merchant y's session. -/
theorem ownership_checks_reject_mismatched_example :
    (handleMerchantMessage c3Env ("s1") ("hi") ("merchant")).mutations = [] ∧
    (handleMerchantMessage c3Env ("s1") ("hi") ("merchant")).roomEvents = [] ∧
    (handleMerchantMessage c3Env ("s1") ("hi") ("merchant")).errorToSender
      = some ("Unauthorized") ∧
    (handleMerchantTakeover (some c3Session) (some ("x")) ("s1")
      = { errorToSender := some ("Unauthorized") }) ∧
    (handleMerchantReleaseTakeover (some c3Session) (some ("x")) ("s1")
      = { errorToSender := some ("Unauthorized") }) ∧
    (listMerchantSessions ⟨some ("x")⟩ ("y") [] = SessionsResponse.forbidden) :=
  have h := ownership_checks_reject_mismatched_socket_identity ("x") ("y") (by decide)
    c3Session rfl c3Env rfl rfl ("s1") ("hi") []
  ⟨h.1.1, h.1.2.1, h.1.2.2 rfl (by decide), h.2.1, h.2.2.1, h.2.2.2⟩

/-- C3 code-bug demonstration at the failing input: a connection
authenticated as an operator of merchant x (the middleware resolved
`userType = merchant`, `merchantId = x`) emits customer:join for
merchant y; `handleCustomerJoin` overwrites `socket.data.merchantId`
with y from the untrusted payload.  The merchant takeover and
merchant-typed message handlers compare only this forgeable field and
never re-check `userType`, so both operations then succeed against
merchant y's session s1: the takeover is persisted and broadcast, and an
operator message is persisted into y's conversation with an automatic
takeover — no authorization error, contradicting the claim that a
connection authenticated for x can never mutate y's conversations. -/
theorem C3_forged_identity_mutates_foreign_session :
    ((customerJoinAssignSocketData (authenticateOperator ("u1") ("x")) ("y") ("s1")).merchantId
        = some ("y")) ∧
    (handleMerchantTakeover (some c3Session)
        (customerJoinAssignSocketData (authenticateOperator ("u1") ("x")) ("y") ("s1")).merchantId
        ("s1")
      = { mutations := [.takeover ("s1")], roomEvents := [.takeoverNotice ("s1")] }) ∧
    (handleMerchantMessage
        { rateLimited := false, session := some c3Session
          socketMerchantId :=
            (customerJoinAssignSocketData (authenticateOperator ("u1") ("x")) ("y") ("s1")).merchantId }
        ("s1") ("hello") ("merchant")
      = { mutations := [.savedMessage ⟨"s1", sanitizeMessage ("hello"), "merchant", some ("y")⟩,
            .takeover ("s1")]
          roomEvents := [.messageReceive ⟨"s1", sanitizeMessage ("hello"), "merchant", some ("y")⟩,
            .takeoverNotice ("s1")] }) := by
  refine ⟨rfl, rfl, ?_⟩
  rfl

/-- C8: every customer-authored message the customer handler persists
carries the sanitized content, every operator-authored message the
merchant handler persists carries the sanitized content, and
automated-responder output is stored verbatim — the customer handler
saves the raw awaited response, and generateResponse passes a non-blank
provider string through unchanged. -/
theorem C8_sanitization_application
    (envC : CustomerMsgEnv) (envM : MerchantMsgEnv)
    (sidC contentC sidM contentM key model sp : String) (hkey : key ≠ "")
    (hist : List ChatMessageR) (c : String) (hc : jsTrim c.data ≠ []) :
    (∀ m : SavedMessage,
        DbMutation.savedMessage m
            ∈ (handleCustomerMessage envC sidC contentC ("customer")).mutations →
        (m.senderType = "customer" → m.content = sanitizeMessage contentC) ∧
        (m.senderType = "ai" → m.content = envC.aiResponse)) ∧
    (∀ m : SavedMessage,
        DbMutation.savedMessage m
            ∈ (handleMerchantMessage envM sidM contentM ("merchant")).mutations →
        m.senderType = "merchant" ∧ m.content = sanitizeMessage contentM) ∧
    ((generateResponse true (some key) model (some sp) hist
        (ProviderResult.success (some c))).text = c) := by
  refine ⟨?_, ?_, ?_⟩
  · intro m hm
    by_cases hrl : envC.rateLimited
    · simp [handleCustomerMessage, hrl] at hm
    · cases hval : validateMessage contentC with
      | invalid e => simp [handleCustomerMessage, hrl, hval] at hm
      | valid =>
        cases hses : envC.session with
        | none => simp [handleCustomerMessage, hrl, hval, hses] at hm
        | some sess =>
          by_cases hdis : merchantChatDisabled envC.merchant
          · simp [handleCustomerMessage, hrl, hval, hses, hdis] at hm
          · by_cases hai : (sess.aiEnabled && !sess.merchantTookOver && envC.aiServiceEnabled) = true
            · by_cases hlk : envC.aiLocked
              · simp [handleCustomerMessage, hrl, hval, hses, hdis, hai, hlk] at hm
                subst hm
                exact ⟨fun _ => rfl, fun hco => by simp at hco⟩
              · simp [handleCustomerMessage, hrl, hval, hses, hdis, hai, hlk] at hm
                rcases hm with rfl | rfl
                · exact ⟨fun _ => rfl, fun hco => by simp at hco⟩
                · exact ⟨fun hco => by simp at hco, fun _ => rfl⟩
            · simp [handleCustomerMessage, hrl, hval, hses, hdis, hai] at hm
              subst hm
              exact ⟨fun _ => rfl, fun hco => by simp at hco⟩
  · intro m hm
    by_cases hrl : envM.rateLimited
    · simp [handleMerchantMessage, hrl] at hm
    · cases hval : validateMessage contentM with
      | invalid e => simp [handleMerchantMessage, hrl, hval] at hm
      | valid =>
        cases hses : envM.session with
        | none => simp [handleMerchantMessage, hrl, hval, hses] at hm
        | some sess =>
          by_cases hauth : envM.socketMerchantId ≠ some sess.merchantId
          · simp [handleMerchantMessage, hrl, hval, hses, hauth] at hm
          · by_cases htk : sess.merchantTookOver
            · simp [handleMerchantMessage, hrl, hval, hses, hauth, htk] at hm
              subst hm
              exact ⟨rfl, rfl⟩
            · simp [handleMerchantMessage, hrl, hval, hses, hauth, htk] at hm
              subst hm
              exact ⟨rfl, rfl⟩
  · have htr : truthyStr (some key) = true := by simp [truthyStr, hkey]
    simp [generateResponse, htr, hc]

/-- Concrete environments for the C8 witness. -/
def c8Session : ChatSessionR := { id := "s2", merchantId := "m2" }

def c8EnvC : CustomerMsgEnv :=
  { rateLimited := false, session := some c8Session
    aiServiceEnabled := true, aiLocked := false, aiResponse := "AI says hi" }

def c8EnvM : MerchantMsgEnv :=
  { rateLimited := false, session := some c8Session, socketMerchantId := some ("m2") }

/-- C8 witness: the theorem evaluated on concrete runs — the customer
handler's persisted customer message, the merchant handler's persisted
message, and a raw provider pass-through. -/
theorem C8_witness :
    (((⟨"s2", sanitizeMessage ("hi <there>"), "customer", none⟩ : SavedMessage).senderType
          = "customer" →
        (⟨"s2", sanitizeMessage ("hi <there>"), "customer", none⟩ : SavedMessage).content
          = sanitizeMessage ("hi <there>")) ∧
      ((⟨"s2", sanitizeMessage ("hi <there>"), "customer", none⟩ : SavedMessage).senderType
          = "ai" →
        (⟨"s2", sanitizeMessage ("hi <there>"), "customer", none⟩ : SavedMessage).content
          = c8EnvC.aiResponse)) ∧
    ((⟨"s2", sanitizeMessage ("<b>hello</b>"), "merchant", some ("m2")⟩ : SavedMessage).senderType
        = "merchant" ∧
      (⟨"s2", sanitizeMessage ("<b>hello</b>"), "merchant", some ("m2")⟩ : SavedMessage).content
        = sanitizeMessage ("<b>hello</b>")) ∧
    ((generateResponse true (some ("key")) ("gpt-4") (some ("prompt")) []
        (ProviderResult.success (some ("raw <b>output</b>")))).text = "raw <b>output</b>") :=
  have h := C8_sanitization_application c8EnvC c8EnvM ("s2") ("hi <there>") ("s2")
    ("<b>hello</b>") ("key") ("gpt-4") ("prompt") (by decide) [] ("raw <b>output</b>")
    (by decide)
  ⟨h.1 ⟨"s2", sanitizeMessage ("hi <there>"), "customer", none⟩ (by decide),
   h.2.1 ⟨"s2", sanitizeMessage ("<b>hello</b>"), "merchant", some ("m2")⟩ (by decide),
   h.2.2⟩

/-- C6 counterexample: the provider call carries NO request timeout.  At a
concrete successful generation the issued request's axios options have
`timeout = none` — the source passes only headers to `axios.post` and the
axios default is no timeout, so the claim's bounded-request-timeout
conjunct is false. -/
theorem C6_counterexample :
    ((generateResponse true (some ("key")) ("gpt-4") (some ("prompt")) []
        (ProviderResult.success (some ("hello")))).request.map
      (fun r => r.options.timeout)) = some none := by rfl

/-- C6 amended: the external text-generation call carries NO explicit
request timeout (the axios options hold none), never receives more than
the bounded trailing history window (a system prompt plus at most the
last 10 turns); on any provider error the fixed fallback apology message
(the Arabic variant, regardless of conversation language) is returned,
persisted as the automated reply and delivered to the conversation with
no error surfaced to the customer; the lock release on failure is the
finally-scoped release step of the generation-lock machine. -/
theorem C6_generation_failure_fallback
    (key model sp sid content : String) (hkey : key ≠ "")
    (hist : List ChatMessageR) (provider : ProviderResult)
    (envC : CustomerMsgEnv) (sess : ChatSessionR)
    (hses : envC.session = some sess) (hai : sess.aiEnabled = true)
    (hto : sess.merchantTookOver = false) (hsvc : envC.aiServiceEnabled = true)
    (hlk : envC.aiLocked = false) (hrl : envC.rateLimited = false)
    (hval : validateMessage content = .valid)
    (hmer : merchantChatDisabled envC.merchant = false)
    (hair : envC.aiResponse
      = (generateResponse true (some key) model (some sp) hist ProviderResult.failure).text) :
    (∀ rq : AiRequest,
        (generateResponse true (some key) model (some sp) hist provider).request = some rq →
        rq.options.timeout = none ∧ rq.messages.length ≤ 11) ∧
    ((generateResponse true (some key) model (some sp) hist ProviderResult.failure).text
        = getFallbackMessage) ∧
    (DbMutation.savedMessage ⟨sid, getFallbackMessage, "ai", none⟩
        ∈ (handleCustomerMessage envC sid content ("customer")).mutations ∧
      RoomEvent.aiResponse ⟨sid, getFallbackMessage, "ai", none⟩
        ∈ (handleCustomerMessage envC sid content ("customer")).roomEvents ∧
      (handleCustomerMessage envC sid content ("customer")).errorToSender = none) := by
  have htr : truthyStr (some key) = true := by simp [truthyStr, hkey]
  have hfb : (generateResponse true (some key) model (some sp) hist
      ProviderResult.failure).text = getFallbackMessage := by
    simp [generateResponse, htr]
  refine ⟨?_, hfb, ?_⟩
  · intro rq hrq
    have hreq : (generateResponse true (some key) model (some sp) hist provider).request
        = some ⟨model, buildAiMessages sp hist, 500, aiRequestOptions⟩ := by
      cases provider with
      | failure => simp [generateResponse, htr]
      | success oc =>
        cases oc with
        | none => simp [generateResponse, htr]
        | some c =>
          by_cases hcc : jsTrim c.data = [] <;> simp [generateResponse, htr, hcc]
    rw [hreq] at hrq
    cases Option.some.inj hrq
    refine ⟨rfl, ?_⟩
    show (buildAiMessages sp hist).length ≤ 11
    simp only [buildAiMessages, List.length_cons, List.length_map, List.length_drop]
    omega
  · have hb : (sess.aiEnabled && !sess.merchantTookOver && envC.aiServiceEnabled) = true := by
      simp [hai, hto, hsvc]
    have haif : envC.aiResponse = getFallbackMessage := by rw [hair, hfb]
    simp [handleCustomerMessage, hrl, hval, hses, hmer, hb, hlk, haif]

/-- Concrete session and environment for the C6 witness: the provider call
fails, so the awaited response is the fallback text. -/
def c6Session : ChatSessionR := { id := "s3", merchantId := "m3" }

def c6Env : CustomerMsgEnv :=
  { rateLimited := false, session := some c6Session, merchant := none
    aiServiceEnabled := true, aiLocked := false
    aiResponse := (generateResponse true (some ("key")) ("gpt-4") (some ("prompt")) []
      ProviderResult.failure).text }

/-- C6 witness: the amended theorem at a concrete failed generation — the
request that would be issued carries no timeout and at most 11 messages,
and the fallback message is persisted and broadcast with no error to the
customer. -/
theorem C6_witness :
    ((⟨"gpt-4", buildAiMessages ("prompt") [], 500, aiRequestOptions⟩ : AiRequest).options.timeout
        = none ∧
      (⟨"gpt-4", buildAiMessages ("prompt") [], 500, aiRequestOptions⟩ : AiRequest).messages.length
        ≤ 11) ∧
    ((generateResponse true (some ("key")) ("gpt-4") (some ("prompt")) []
        ProviderResult.failure).text = getFallbackMessage) ∧
    (DbMutation.savedMessage ⟨"s3", getFallbackMessage, "ai", none⟩
        ∈ (handleCustomerMessage c6Env ("s3") ("hello") ("customer")).mutations ∧
      RoomEvent.aiResponse ⟨"s3", getFallbackMessage, "ai", none⟩
        ∈ (handleCustomerMessage c6Env ("s3") ("hello") ("customer")).roomEvents ∧
      (handleCustomerMessage c6Env ("s3") ("hello") ("customer")).errorToSender = none) :=
  have h := C6_generation_failure_fallback ("key") ("gpt-4") ("prompt") ("s3") ("hello")
    (by decide) [] ProviderResult.failure c6Env c6Session rfl rfl rfl rfl rfl rfl
    (by decide) rfl rfl
  ⟨h.1 ⟨"gpt-4", buildAiMessages ("prompt") [], 500, aiRequestOptions⟩ rfl, h.2.1, h.2.2⟩

end ChatSpec
